import Mathlib

/-!
Verification development for the market-research assistant repository
(`market_research/config.py`, `market_research/research.py`,
`market_research/dialog.py`, `market_research/agents.py`).

The Python code is shallowly embedded: every definition below mirrors one
source function or class.  External, nondeterministic effects are passed in
explicitly:

* `uuid.uuid4()` draws are supplied as a list of fresh identifier strings;
* `datetime.now()` / `time.time()` values are supplied as natural numbers;
* the CrewAI `crew.kickoff()` generation capability is supplied as a
  function argument (pipeline) or as an `Option String` outcome, `none`
  standing for a raised exception (dialog);
* the on-disk cache directory is an association list from sanitized key to
  file contents;
* Python `float` values that flow through JSON are modelled as `Rat`.

Python dictionaries are association lists with insert-or-overwrite-in-place
semantics (`pyDictInsert`), matching CPython insertion order.
-/

/-- Single apostrophe character, used when embedding Python string literals. -/
def apos : String := String.singleton (Char.ofNat 39)

/-- Python `str.lower` on one character (ASCII range, as used by the sources). -/
def lowerChar (c : Char) : Char :=
  if 65 ≤ c.toNat ∧ c.toNat ≤ 90 then Char.ofNat (c.toNat + 32) else c

/-- Python `str.lower`. -/
def pyLower (s : String) : String := ⟨s.data.map lowerChar⟩

/-- Python whitespace (the characters stripped by `str.strip` and matched by `\s`). -/
def isPySpace (c : Char) : Bool :=
  c.toNat = 32 ∨ c.toNat = 9 ∨ c.toNat = 10 ∨ c.toNat = 13 ∨ c.toNat = 11 ∨ c.toNat = 12

/-- Python `str.strip` on a character list. -/
def pyStripL (l : List Char) : List Char :=
  ((l.dropWhile isPySpace).reverse.dropWhile isPySpace).reverse

/-- Python `str.strip`. -/
def pyStrip (s : String) : String := ⟨pyStripL s.data⟩

/-- Python `str.split()` with no argument: split on whitespace runs, no empty parts. -/
def pyWordsGo : List Char → List Char → List (List Char)
  | acc, [] => if acc.isEmpty then [] else [acc.reverse]
  | acc, c :: rest =>
    if isPySpace c then
      (if acc.isEmpty then pyWordsGo [] rest else acc.reverse :: pyWordsGo [] rest)
    else pyWordsGo (c :: acc) rest

/-- Python `str.split()` with no argument. -/
def pyWords (s : String) : List (List Char) := pyWordsGo [] s.data

/-- Python substring membership `needle in hay` on character lists. -/
def containsL (hay needle : List Char) : Bool :=
  hay.tails.any (fun t => needle.isPrefixOf t)

/-- Python substring membership `needle in hay`. -/
def containsStr (hay needle : String) : Bool := containsL hay.data needle.data

/-- Python `str.endswith`. -/
def pyEndsWith (s suffix : String) : Bool := suffix.data.isSuffixOf s.data

/-- Python slicing `s[:n]`. -/
def strTake (s : String) (n : Nat) : String := ⟨s.data.take n⟩

/-- Python `str.startswith` (also the guard used by `extract_sections`). -/
def startsWithL (pre l : List Char) : Bool := pre.isPrefixOf l

/-- Python `str.replace(pat, "")` for a non-empty pattern: every occurrence of
`pat` is removed, scanning left to right. -/
def removeAllGo (pat : List Char) : Nat → List Char → List Char
  | _, [] => []
  | 0, l => l
  | fuel + 1, c :: rest =>
    if pat.isPrefixOf (c :: rest) then
      removeAllGo pat fuel ((c :: rest).drop pat.length)
    else
      c :: removeAllGo pat fuel rest

/-- Python `line.replace(pat, "")` (removal form of `str.replace`). -/
def removeAll (s pat : String) : String := ⟨removeAllGo pat.data s.data.length s.data⟩

/-- CPython `dict` assignment `m[k] = v` on an insertion-ordered association
list: an existing key keeps its position and gets the new value, a new key is
appended. -/
def pyDictInsert {α : Type} (m : List (String × α)) (k : String) (v : α) :
    List (String × α) :=
  if m.any (fun p => p.1 == k) then
    m.map (fun p => if p.1 == k then (k, v) else p)
  else m ++ [(k, v)]

/-- Python `report.split('\n')`: split on every newline, keeping empty parts. -/
def splitNl : List Char → List (List Char)
  | [] => [[]]
  | c :: rest =>
    if c = '\n' then [] :: splitNl rest
    else
      match splitNl rest with
      | [] => [[c]]
      | part :: parts => (c :: part) :: parts

/-- Loop state of `ResearchEngine.extract_sections`: the committed sections,
the name of the open section and its accumulated content lines. -/
structure ExtState where
  sections : List (String × List String)
  current_section : String
  current_content : List String
deriving Repr, DecidableEq

/-- One iteration of the `for line in report.split('\n')` loop of
`ResearchEngine.extract_sections` (research.py lines 250-274). -/
def processLine (st : ExtState) (rawLine : List Char) : ExtState :=
  let line := pyStripL rawLine
  if line.isEmpty then st
  else if startsWithL ['#', ' '] line then st
  else if startsWithL ['#', '#', ' '] line then
    let sections :=
      if st.current_content ≠ [] then
        pyDictInsert st.sections st.current_section st.current_content
      else st.sections
    ⟨sections, pyLower (removeAll ⟨line⟩ "## "), []⟩
  else if startsWithL ['#', '#', '#', ' '] line then
    { st with current_content :=
        st.current_content ++ ["**" ++ removeAll ⟨line⟩ "### " ++ "**"] }
  else
    { st with current_content := st.current_content ++ [(⟨line⟩ : String)] }

/-- `ResearchEngine.extract_sections` (research.py lines 244-280): fold the
line loop, then commit the final open section if it has content. -/
def extract_sections (report : String) : List (String × List String) :=
  let final := (splitNl report.data).foldl processLine ⟨[], "overview", []⟩
  if final.current_content ≠ [] then
    pyDictInsert final.sections final.current_section final.current_content
  else final.sections

/-- `ResearchParameters` (config.py lines 22-28): pydantic model with required
`query` and defaulted `depth`, `location`, `time_frame`, `input_type`. -/
structure ResearchParameters where
  query : String
  depth : String
  location : String
  time_frame : String
  input_type : String
deriving Repr, DecidableEq

/-- Pydantic construction of `ResearchParameters`: the only validation the
class declares is that `query` must be provided (`Field(...)`); an empty
string is accepted.  The remaining fields fall back to their declared
defaults when not supplied. -/
def ResearchParameters.construct (query : Option String)
    (depth : String := "detailed") (location : String := "global")
    (time_frame : String := "2 years") (input_type : String := "topic") :
    Except String ResearchParameters :=
  match query with
  | none => .error "ValidationError: query field required"
  | some q => .ok ⟨q, depth, location, time_frame, input_type⟩

/-- `ResearchParameters.from_user_input` (config.py lines 30-39). -/
def ResearchParameters.from_user_input (query : String) : ResearchParameters :=
  { query := query
    depth := "detailed"
    location := "global"
    time_frame := "2 years"
    input_type := if ¬ (pyEndsWith (pyLower query) " company" = true) then "topic" else "company" }

/-- The slice of `AppConfig` (config.py lines 45-71) consulted by the
embedded operations.  The remaining fields configure external providers
(API keys, voice, verbosity) and never influence the modelled values. -/
structure AppConfig where
  llm_model : String
deriving Repr, DecidableEq

/-- The cache directory managed by `CacheTool` (agents.py lines 53-86):
sanitized key to file contents. -/
abbrev Cache := List (String × String)

/-- Key sanitization shared by `CacheTool.save_to_cache` and
`CacheTool.load_from_cache`: `key.replace(" ", "_").replace("/", "_").lower()`. -/
def sanitizeKey (k : String) : String :=
  pyLower ⟨k.data.map (fun c => if c = ' ' ∨ c = '/' then '_' else c)⟩

/-- `CacheTool.save_to_cache` (agents.py lines 61-72): write the file for the
sanitized key, overwriting any existing contents. -/
def cachePut (c : Cache) (key data : String) : Cache :=
  pyDictInsert c (sanitizeKey key) data

/-- `CacheTool.load_from_cache` (agents.py lines 74-86): read the file for the
sanitized key; a missing key returns the sentinel string rather than raising. -/
def cacheLoad (c : Cache) (key : String) : String :=
  match c.find? (fun p => p.1 == sanitizeKey key) with
  | some p => p.2
  | none => "No data found in cache for this key"

/-- One CrewAI `Task` as built by `create_research_tasks`: the description and
expected output strings, the agent key it is assigned to, and the indices (in
creation order) of the tasks passed as `context`. -/
structure MRTask where
  description : String
  expected_output : String
  agent : String
  contextIdx : List Nat
deriving Repr, DecidableEq

/-- Layout helper for the triple-quoted task descriptions: every rendered
line starts with a newline and the 12-space indentation of the Python
source. -/
def tIn : String := "\n            "

/-- Description of the parameter-extraction task (research.py lines 35-56). -/
def parameterExtractionDescription (p : ResearchParameters) : String :=
  tIn ++ "Extract and enhance research parameters from this original request:" ++
  tIn ++ "Query: " ++ p.query ++
  tIn ++ "Depth: " ++ p.depth ++
  tIn ++ "Location: " ++ p.location ++
  tIn ++ "Time Frame: " ++ p.time_frame ++
  tIn ++ "Input Type: " ++ p.input_type ++
  tIn ++
  tIn ++ "Your job is to enhance these parameters by:" ++
  tIn ++ "1. Identifying the main topic or company more precisely" ++
  tIn ++ "2. Determining specific aspects that should be researched" ++
  tIn ++ "3. Identifying relevant industries, competitors, or related areas" ++
  tIn ++ "4. Suggesting specific data sources that might be valuable" ++
  tIn ++ "5. Proposing a search strategy with specific keywords" ++
  tIn ++
  tIn ++ "Return your enhanced parameters in a structured JSON format that includes:" ++
  tIn ++ "- refined_query: A more precise version of the original query" ++
  tIn ++ "- aspects: A list of specific aspects to research" ++
  tIn ++ "- keywords: A list of search keywords to use" ++
  tIn ++ "- sources: Suggested types of sources to prioritize" ++
  tIn ++ "- search_strategy: Brief description of the recommended approach" ++
  tIn

/-- Description of the main research task (research.py lines 63-81). -/
def researchTaskDescription (p : ResearchParameters) (cache_key : String) : String :=
  tIn ++ "Conduct comprehensive research on " ++
    (if p.input_type = "company" then "the company" else "the topic") ++
    ": \"" ++ p.query ++ "\"" ++
  tIn ++ "with a " ++ p.depth ++ " focus in " ++ p.location ++
    " over the past " ++ p.time_frame ++ "." ++
  tIn ++
  tIn ++ "Use the enhanced parameters from the previous task to guide your research." ++
  tIn ++
  tIn ++ "Your research should include:" ++
  tIn ++ "1. " ++ (if p.input_type = "company" then
      "Company background, history, and main products/services"
    else "Topic background and key concepts") ++
  tIn ++ "2. " ++ (if p.input_type = "company" then
      "Market position, competitors, and market share"
    else "Current trends and developments") ++
  tIn ++ "3. " ++ (if p.input_type = "company" then
      "Financial performance and funding history"
    else "Key players and organizations in this space") ++
  tIn ++ "4. " ++ (if p.input_type = "company" then
      "SWOT analysis (strengths, weaknesses, opportunities, threats)"
    else "Market size and growth projections") ++
  tIn ++ "5. " ++ (if p.input_type = "company" then
      "Recent news, developments, and strategic initiatives"
    else "Challenges and opportunities") ++
  tIn ++ "6. " ++ (if p.input_type = "company" then
      "Future outlook and growth potential"
    else "Future predictions and emerging trends") ++
  tIn ++
  tIn ++ "Use multiple sources to ensure comprehensive coverage. Search for information first, then " ++
  tIn ++ "scrape specific websites for deeper insights. For each finding, note the source." ++
  tIn ++
  tIn ++ "Save your raw research findings using the cache tool with key: \"" ++
    cache_key ++ "_raw\"" ++
  tIn

/-- Description of the analysis task (research.py lines 89-105). -/
def analysisTaskDescription (p : ResearchParameters) (cache_key : String) : String :=
  tIn ++ "Analyze the raw research findings on " ++ p.query ++
    " that were saved with the key \"" ++ cache_key ++ "_raw\"." ++
  tIn ++
  tIn ++ "Your analysis should:" ++
  tIn ++ "1. Identify key trends, patterns, and insights" ++
  tIn ++ "2. Evaluate the credibility and consistency of different sources" ++
  tIn ++ "3. Highlight any contradictions or gaps in the information" ++
  tIn ++ "4. Draw connections between different aspects of the research" ++
  tIn ++ "5. Organize the information into logical categories" ++
  tIn ++
  tIn ++ "For " ++ (if p.input_type = "company" then "company" else "topic") ++
    " research, focus on:" ++
  tIn ++ (if p.input_type = "company" then
      "- Business model and revenue streams\n- Competitive advantage and differentiators\n- Market positioning and strategy\n- Financial health and performance\n- Growth vectors and challenges"
    else
      "- Current state and major developments\n- Key influencers and thought leaders\n- Regional differences and patterns\n- Historical context and evolution\n- Future trajectory and potential disruptions") ++
  tIn ++
  tIn ++ "Save your analysis using the cache tool with key: \"" ++
    cache_key ++ "_analysis\"" ++
  tIn

/-- Description of the verification task (research.py lines 113-128). -/
def verificationTaskDescription (p : ResearchParameters) (cache_key : String) : String :=
  tIn ++ "Verify the accuracy and completeness of the research and analysis on " ++
    p.query ++ " " ++
  tIn ++ "that were saved with the keys \"" ++ cache_key ++ "_raw\" and \"" ++
    cache_key ++ "_analysis\"." ++
  tIn ++
  tIn ++ "Your verification should:" ++
  tIn ++ "1. Check if all the required aspects were covered" ++
  tIn ++ "2. Verify key facts from multiple sources when possible" ++
  tIn ++ "3. Identify any potentially outdated or incorrect information" ++
  tIn ++ "4. Look for potential biases in the sources or analysis" ++
  tIn ++ "5. Fill in any important gaps with additional research" ++
  tIn ++
  tIn ++ "If you find discrepancies or missing information, conduct additional search and research " ++
  tIn ++ "to correct or complete the information." ++
  tIn ++
  tIn ++ "Save your verification results using the cache tool with key: \"" ++
    cache_key ++ "_verified\"" ++
  tIn

/-- Description of the content-creation task (research.py lines 136-155). -/
def contentTaskDescription (p : ResearchParameters) (cache_key : String) : String :=
  tIn ++ "Create a comprehensive, well-structured research report on " ++
    p.query ++ " based on the " ++
  tIn ++ "verified research and analysis saved with keys \"" ++ cache_key ++
    "_raw\", \"" ++ cache_key ++ "_analysis\", and \"" ++ cache_key ++ "_verified\"." ++
  tIn ++
  tIn ++ "Your report should:" ++
  tIn ++ "1. Begin with an executive summary that highlights key findings" ++
  tIn ++ "2. Be organized in clear sections with descriptive headings" ++
  tIn ++ "3. Include relevant data, statistics, and trends" ++
  tIn ++ "4. Be written in a clear, engaging style suitable for both voice and text presentation" ++
  tIn ++ "5. Conclude with actionable insights or recommendations" ++
  tIn ++
  tIn ++ "Format requirements:" ++
  tIn ++ "- Use markdown formatting for structure (headings, bullet points, etc.)" ++
  tIn ++ "- Keep paragraphs relatively short for readability" ++
  tIn ++ "- Use bold text for key points" ++
  tIn ++ "- Include a structured table of contents" ++
  tIn ++ "- Organize information in a logical flow" ++
  tIn ++
  tIn ++ "Save your final report using the cache tool with key: \"" ++
    cache_key ++ "_final\"" ++
  tIn

/-- `ResearchEngine.create_research_tasks` (research.py lines 25-161).
The `uuid.uuid4()` draw at line 30 is supplied as `task_id` (already cut to
8 characters by the caller's id supply). -/
def create_research_tasks (task_id : String) (params : ResearchParameters) :
    List MRTask :=
  let cache_key := "research_" ++ strTake params.query 20 ++ "_" ++ task_id
  [ { description := parameterExtractionDescription params
      expected_output := "Enhanced research parameters in JSON format for " ++
        apos ++ params.query ++ apos
      agent := "dialog", contextIdx := [] },
    { description := researchTaskDescription params cache_key
      expected_output := "Comprehensive raw research on " ++ params.query
      agent := "researcher", contextIdx := [0] },
    { description := analysisTaskDescription params cache_key
      expected_output := "Structured analysis of research on " ++ params.query
      agent := "analyst", contextIdx := [1] },
    { description := verificationTaskDescription params cache_key
      expected_output := "Verified research findings on " ++ params.query
      agent := "verifier", contextIdx := [1, 2] },
    { description := contentTaskDescription params cache_key
      expected_output := "Comprehensive research report on " ++ params.query
      agent := "writer", contextIdx := [1, 2, 3] } ]

/-- Metadata block of a `ResearchResult` dictionary.  Keys absent from the
Python dictionary are `none`: the success shape has `model` and no `status`,
the error shape has `status` and no `model`. -/
structure ResearchMetadata where
  research_id : String
  timestamp : Nat
  elapsed_time : Nat
  model : Option String
  status : Option String
deriving Repr, DecidableEq

/-- The dictionary returned by `ResearchEngine.conduct_research`.  Keys
absent from the Python dictionary are `none` (the error shape carries no
`raw_data`/`analysis`/`verified`/`final_report`/`result_summary`). -/
structure ResearchResult where
  query : String
  parameters : ResearchParameters
  raw_data : Option String
  analysis : Option String
  verified : Option String
  final_report : Option String
  result_summary : Option String
  error : Option String
  metadata : ResearchMetadata
deriving Repr, DecidableEq

/-- `ResearchEngine.conduct_research` (research.py lines 163-242).

* `uuids` supplies the `uuid.uuid4()[:8]` draws in evaluation order: index 0
  is drawn inside `create_research_tasks` (line 30), index 1 at line 183,
  index 2 in the error handler (line 237).
* `startTime`/`endTime` stand for the two `time.time()` readings.
* `kickoff` is the CrewAI `crew.kickoff()` call: it may consult the cache,
  returns `result.raw` and the cache it leaves behind, or raises.
* The cache loads at lines 189-192 are total (`load_from_cache` catches its
  own errors and returns a sentinel on a missing key), so the `except` at
  line 193 is unreachable here.  The `json.dump` persistence at lines
  219-221 is file IO outside the model and does not alter the result. -/
def conduct_research (cfg : AppConfig) (uuids : List String)
    (startTime endTime : Nat)
    (kickoff : List MRTask → Cache → Except String (String × Cache))
    (params : ResearchParameters) (cache : Cache) : ResearchResult × Cache :=
  let tasks := create_research_tasks (uuids.getD 0 "") params
  let task_id := uuids.getD 1 ""
  let cache_key := "research_" ++ strTake params.query 20 ++ "_" ++ task_id
  match kickoff tasks cache with
  | .error e =>
    ({ query := params.query
       parameters := params
       raw_data := none, analysis := none, verified := none
       final_report := none, result_summary := none
       error := some e
       metadata :=
         { research_id := uuids.getD 2 ""
           timestamp := endTime
           elapsed_time := endTime - startTime
           model := none
           status := some "error" } }, cache)
  | .ok (resultRaw, cache') =>
    ({ query := params.query
       parameters := params
       raw_data := some (cacheLoad cache' (cache_key ++ "_raw"))
       analysis := some (cacheLoad cache' (cache_key ++ "_analysis"))
       verified := some (cacheLoad cache' (cache_key ++ "_verified"))
       final_report := some (cacheLoad cache' (cache_key ++ "_final"))
       result_summary := some resultRaw
       error := none
       metadata :=
         { research_id := task_id
           timestamp := endTime
           elapsed_time := endTime - startTime
           model := some cfg.llm_model
           status := none } }, cache')

/-- Unnormalized decimal number `mant / 10 ^ scale`, the shape in which
Python floats and ints surface from `json.loads` here.  Two decimals denote
the same number exactly when their cross products agree; `Dec.toRat` gives
the denoted rational. -/
structure Dec where
  mant : Int
  scale : Nat
deriving Repr, DecidableEq

/-- The rational number a decimal denotes. -/
def Dec.toRat (d : Dec) : Rat := (d.mant : Rat) / (10 : Rat) ^ d.scale

/-- Numeric equality of decimals (Python `==` on numbers). -/
def Dec.beq (a b : Dec) : Bool := a.mant * 10 ^ b.scale == b.mant * 10 ^ a.scale

/-- Python/JSON values flowing through the dialog module.  Numbers are
modelled as exact decimals (`Dec`); no claim depends on binary float
rounding. -/
inductive Json where
  | null : Json
  | bool (b : Bool) : Json
  | num (d : Dec) : Json
  | str (s : String) : Json
  | arr (l : List Json) : Json
  | obj (l : List (String × Json)) : Json
deriving Repr

mutual

/-- Structural equality test on JSON values (Python `==` on the shapes the
dialog module compares; numbers compare numerically). -/
def jsonBeq : Json → Json → Bool
  | .null, .null => true
  | .bool a, .bool b => a == b
  | .num a, .num b => a.beq b
  | .str a, .str b => a == b
  | .arr a, .arr b => jsonBeqL a b
  | .obj a, .obj b => jsonBeqO a b
  | _, _ => false

/-- Equality test on JSON arrays. -/
def jsonBeqL : List Json → List Json → Bool
  | [], [] => true
  | a :: as, b :: bs => jsonBeq a b && jsonBeqL as bs
  | _, _ => false

/-- Equality test on JSON object entry lists. -/
def jsonBeqO : List (String × Json) → List (String × Json) → Bool
  | [], [] => true
  | (k1, v1) :: as, (k2, v2) :: bs => k1 == k2 && jsonBeq v1 v2 && jsonBeqO as bs
  | _, _ => false

end

instance : BEq Json := ⟨jsonBeq⟩

/-- Python truthiness of a value (`bool(v)`), as used by `parameters or {}`
and `if context.current_topic:`. -/
def pyTruthy : Json → Bool
  | .null => false
  | .bool b => b
  | .num d => !(d.mant == 0)
  | .str s => !(s == "")
  | .arr l => !l.isEmpty
  | .obj l => !l.isEmpty

/-- Lookup in a JSON object association list (keys are unique because
objects are built with `pyDictInsert`). -/
def pyLookup (d : List (String × Json)) (k : String) : Option Json :=
  (d.find? (fun p => p.1 == k)).map (fun p => p.2)

/-- Python `d.get(k)` with implicit `None` default: raises `AttributeError`
when the receiver is not a dictionary. -/
def pyGet1 (j : Json) (k : String) : Except String Json :=
  match j with
  | .obj d => .ok ((pyLookup d k).getD .null)
  | _ => .error "AttributeError: object has no attribute get"

/-- Python `d.get(k, default)`: raises `AttributeError` when the receiver is
not a dictionary. -/
def pyGet2 (j : Json) (k : String) (dflt : Json) : Except String Json :=
  match j with
  | .obj d => .ok ((pyLookup d k).getD dflt)
  | _ => .error "AttributeError: object has no attribute get"

/-- Python `str(v)` as used when a dialog value is interpolated into an
f-string: a string renders bare; other shapes only occur off the claims'
paths and are rendered structurally. -/
def pyStr : Json → String
  | .null => "None"
  | .bool b => if b then "True" else "False"
  | .num d => toString d.mant
  | .str s => s
  | .arr _ => "[list]"
  | .obj _ => "[dict]"

/-- Decimal digit test for the JSON number grammar. -/
def isDigitC (c : Char) : Bool := 48 ≤ c.toNat ∧ c.toNat ≤ 57

/-- Accumulate a run of decimal digits: value so far, digit count, rest. -/
def parseDigitsGo (acc n : Nat) : List Char → Nat × Nat × List Char
  | [] => (acc, n, [])
  | c :: rest =>
    if isDigitC c then parseDigitsGo (acc * 10 + (c.toNat - 48)) (n + 1) rest
    else (acc, n, c :: rest)

/-- Parse a non-empty run of decimal digits. -/
def parseDigits (l : List Char) : Option (Nat × Nat × List Char) :=
  match l with
  | c :: _ => if isDigitC c then some (parseDigitsGo 0 0 l) else none
  | [] => none

/-- Skip JSON whitespace. -/
def skipWs (l : List Char) : List Char :=
  l.dropWhile (fun c => c.toNat = 32 ∨ c.toNat = 9 ∨ c.toNat = 10 ∨ c.toNat = 13)

/-- Map a JSON escape character to the character it denotes. -/
def unescape (c : Char) : Char :=
  if c = 'n' then '\n'
  else if c = 't' then '\t'
  else if c = 'r' then '\r'
  else if c = 'b' then Char.ofNat 8
  else if c = 'f' then Char.ofNat 12
  else c

/-- Parse the remainder of a JSON string literal (after the opening quote),
handling single-character escapes. -/
def parseJsonString : List Char → Option (String × List Char)
  | [] => none
  | c :: rest =>
    if c = '"' then some ("", rest)
    else if c = '\\' then
      match rest with
      | [] => none
      | e :: rest' =>
        match parseJsonString rest' with
        | some (s, rest'') => some (⟨unescape e :: s.data⟩, rest'')
        | none => none
    else
      match parseJsonString rest with
      | some (s, rest') => some (⟨c :: s.data⟩, rest')
      | none => none

/-- Parse a JSON number starting at the given characters, as an exact
decimal. -/
def parseJsonNumber (l : List Char) : Option (Dec × List Char) :=
  let (neg, l1) := match l with
    | '-' :: rest => (true, rest)
    | _ => (false, l)
  match parseDigits l1 with
  | none => none
  | some (intPart, _, l2) =>
    let (mant, scale, l3) : Nat × Nat × List Char :=
      match l2 with
      | '.' :: l2' =>
        match parseDigits l2' with
        | some (fracPart, fracLen, l3') =>
          (intPart * 10 ^ fracLen + fracPart, fracLen, l3')
        | none => (intPart, 0, '.' :: l2')
      | _ => (intPart, 0, l2)
    let (mant', scale', l4) : Nat × Nat × List Char :=
      match l3 with
      | 'e' :: l3' | 'E' :: l3' =>
        let (eneg, l3'') := match l3' with
          | '-' :: r => (true, r)
          | '+' :: r => (false, r)
          | _ => (false, l3')
        match parseDigits l3'' with
        | some (expPart, _, l4') =>
          if eneg then (mant, scale + expPart, l4')
          else (mant * 10 ^ expPart, scale, l4')
        | none => (mant, scale, l3)
      | _ => (mant, scale, l3)
    some (⟨if neg then -(mant' : Int) else (mant' : Int), scale'⟩, l4)

mutual

/-- Fuel-indexed parser for one JSON value (the grammar accepted by Python
`json.loads` on the inputs in scope). -/
def parseJsonVal : Nat → List Char → Option (Json × List Char)
  | 0, _ => none
  | fuel + 1, cs =>
    match skipWs cs with
    | [] => none
    | c :: rest =>
      if c = 'n' then
        if ['u', 'l', 'l'].isPrefixOf rest then some (.null, rest.drop 3) else none
      else if c = 't' then
        if ['r', 'u', 'e'].isPrefixOf rest then some (.bool true, rest.drop 3) else none
      else if c = 'f' then
        if ['a', 'l', 's', 'e'].isPrefixOf rest then some (.bool false, rest.drop 4) else none
      else if c = '"' then
        match parseJsonString rest with
        | some (s, rest') => some (.str s, rest')
        | none => none
      else if c = '[' then
        match skipWs rest with
        | ']' :: rest' => some (.arr [], rest')
        | rest' =>
          match parseJsonItems fuel rest' with
          | some (items, rest'') => some (.arr items, rest'')
          | none => none
      else if c = '{' then
        match skipWs rest with
        | '}' :: rest' => some (.obj [], rest')
        | rest' =>
          match parseJsonMembers fuel [] rest' with
          | some (members, rest'') => some (.obj members, rest'')
          | none => none
      else if c = '-' ∨ isDigitC c then
        match parseJsonNumber (c :: rest) with
        | some (d, rest') => some (.num d, rest')
        | none => none
      else none

/-- Parse the comma-separated elements of a non-empty JSON array, up to and
including the closing bracket. -/
def parseJsonItems : Nat → List Char → Option (List Json × List Char)
  | 0, _ => none
  | fuel + 1, cs =>
    match parseJsonVal fuel cs with
    | none => none
    | some (v, rest) =>
      match skipWs rest with
      | ',' :: rest' =>
        match parseJsonItems fuel rest' with
        | some (vs, rest'') => some (v :: vs, rest'')
        | none => none
      | ']' :: rest' => some ([v], rest')
      | _ => none

/-- Parse the comma-separated members of a non-empty JSON object, up to and
including the closing brace; duplicate keys overwrite like Python dicts. -/
def parseJsonMembers : Nat → List (String × Json) → List Char →
    Option (List (String × Json) × List Char)
  | 0, _, _ => none
  | fuel + 1, acc, cs =>
    match skipWs cs with
    | '"' :: rest =>
      match parseJsonString rest with
      | none => none
      | some (k, rest') =>
        match skipWs rest' with
        | ':' :: rest'' =>
          match parseJsonVal fuel rest'' with
          | none => none
          | some (v, rest3) =>
            let acc' := pyDictInsert acc k v
            match skipWs rest3 with
            | ',' :: rest4 => parseJsonMembers fuel acc' rest4
            | '}' :: rest4 => some (acc', rest4)
            | _ => none
        | _ => none
    | _ => none

end

/-- Python `json.loads`: parse one JSON document and require only trailing
whitespace after it; any other outcome raises `json.JSONDecodeError`
(modelled as `none`). -/
def json_loads (s : String) : Option Json :=
  match parseJsonVal (s.data.length + 1) s.data with
  | some (j, rest) => if (skipWs rest).isEmpty then some j else none
  | none => none

/-- Regex `\w`: word character for Python word boundaries (ASCII range, as
relevant to the keyword lists). -/
def isWordChar (c : Char) : Bool :=
  (97 ≤ c.toNat ∧ c.toNat ≤ 122) ∨ (65 ≤ c.toNat ∧ c.toNat ≤ 90) ∨
  (48 ≤ c.toNat ∧ c.toNat ≤ 57) ∨ c = '_'

/-- After a keyword match, `\b` holds when the next character is a non-word
character or the input ends. -/
def boundaryAfter : List Char → Bool
  | [] => true
  | c :: _ => !isWordChar c

/-- Scan for `re.search(r'\b<word>\b', s)` for one literal word (every word
in the sources starts and ends with a word character, so each `\b` demands a
non-word neighbour or a string edge). `prev` records whether the previous
character was a word character. -/
def wordOccursGo (w : List Char) : Bool → List Char → Bool
  | _, [] => false
  | prev, c :: rest =>
    (!prev && w.isPrefixOf (c :: rest) && boundaryAfter ((c :: rest).drop w.length)) ||
      wordOccursGo w (isWordChar c) rest

/-- `re.search(r'\b(w1|w2|...)\b', s)` is not `None`: some alternative occurs
with word boundaries. -/
def wordSearchAny (s : String) (ws : List String) : Bool :=
  ws.any (fun w => wordOccursGo w.data false s.data)

/-- Case-insensitive literal-prefix match: the pattern characters are already
lower case, the subject is lowered character-wise (regex `re.IGNORECASE`). -/
def ciPrefix : List Char → List Char → Option (List Char)
  | [], rest => some rest
  | _, [] => none
  | p :: ps, c :: cs => if lowerChar c = p then ciPrefix ps cs else none

/-- `re.sub(rf'\b{re.escape(keyword)}\b\s*', '', message, flags=re.IGNORECASE)`:
remove every non-overlapping word-boundary occurrence of `kw` together with
the whitespace run that follows it, scanning left to right.  `prev` tracks
whether the previous character of the original string was a word character
(that decides the leading `\b`); after a removal the scan resumes after the
consumed region. -/
def reSubGo (kw : List Char) : Nat → Bool → List Char → List Char
  | _, _, [] => []
  | 0, _, l => l
  | fuel + 1, prev, c :: rest =>
    match (if prev then none else ciPrefix kw (c :: rest)) with
    | some rest1 =>
      if boundaryAfter rest1 then
        let rest2 := rest1.dropWhile isPySpace
        let prev' := if rest2.length = rest1.length then
            (match kw.reverse with
             | k :: _ => isWordChar k
             | [] => prev)
          else false
        reSubGo kw fuel prev' rest2
      else c :: reSubGo kw fuel (isWordChar c) rest
    | none => c :: reSubGo kw fuel (isWordChar c) rest

/-- Remove all word-boundary, case-insensitive occurrences of `kw` (plus
trailing whitespace) from `s` — the topic-stripping substitution of
`classify_intent` (dialog.py lines 170-171). -/
def reSubWord (kw s : String) : String := ⟨reSubGo kw.data s.data.length false s.data⟩

/-- A recognized user intent (`DialogIntent`, dialog.py lines 18-25).
`type`, `parameters` and `confidence` are JSON values because the
model-fallback path stores parsed JSON in them unvalidated; the timestamp is
the `datetime.now()` reading. -/
structure DialogIntent where
  type : Json
  parameters : Json
  confidence : Json
  timestamp : Nat
deriving Repr

/-- `DialogIntent.__init__`: `parameters or {}` and default confidence 1.0. -/
def DialogIntent.make (t : Json) (p : Json) (now : Nat) : DialogIntent :=
  { type := t
    parameters := if pyTruthy p then p else Json.obj []
    confidence := Json.num ⟨10, 1⟩
    timestamp := now }

/-- One history entry (`DialogContext.add_message`, dialog.py lines 60-71):
the `uuid.uuid4()` message id is supplied as a number, the timestamp is the
`datetime.now()` reading, `meta` is the `metadata or {}` bag. -/
structure Message where
  id : Nat
  role : String
  content : String
  timestamp : Nat
  meta : Json
deriving Repr

/-- The `metadata` dictionary of a `DialogContext`. -/
structure CtxMetadata where
  session_start : Nat
  last_activity : Nat
deriving Repr, DecidableEq

/-- `DialogContext` (dialog.py lines 44-58).  `current_topic` and
`current_research_id` are JSON values (`None` initially; the dialog code can
store arbitrary parsed values in them). -/
structure DialogContext where
  session_id : String
  history : List Message
  current_topic : Json
  current_research_id : Json
  user_preferences : Json
  last_intent : Option DialogIntent
  conversation_state : String
  metadata : CtxMetadata
deriving Repr

/-- `DialogContext.__init__` with a supplied session id (the only form the
claims exercise); `now` is the `datetime.now()` reading. -/
def DialogContext.init (session_id : String) (now : Nat) : DialogContext :=
  { session_id := session_id
    history := []
    current_topic := Json.null
    current_research_id := Json.null
    user_preferences := Json.obj []
    last_intent := none
    conversation_state := "greeting"
    metadata := ⟨now, now⟩ }

/-- `DialogContext.add_message` (dialog.py lines 60-71): append one message
and refresh `metadata.last_activity`. -/
def add_message (now msgId : Nat) (role content : String) (meta : Json)
    (ctx : DialogContext) : DialogContext :=
  { ctx with
      history := ctx.history ++
        [{ id := msgId, role := role, content := content, timestamp := now
           meta := if pyTruthy meta then meta else Json.obj [] }]
      metadata := { ctx.metadata with last_activity := now } }

/-- Keyword set of the reset system command (dialog.py line 149). -/
def resetKws : List String := ["reset", "start over", "clear", "new conversation"]

/-- Keyword set of the help system command (dialog.py line 152). -/
def helpKws : List String := ["help", "how does this work", "what can you do"]

/-- Greeting keywords (dialog.py line 156). -/
def greetKws : List String := ["hi", "hello", "hey", "greetings", "howdy"]

/-- Research-request keywords in source order (dialog.py lines 160-162). -/
def research_keywords : List String :=
  ["research", "find", "look up", "search", "investigate", "analyze", "study",
   "get info", "tell me about", "what is", "who is", "market", "industry",
   "company", "trends", "statistics", "data on", "report on"]

/-- Follow-up keywords (dialog.py lines 181-182). -/
def followup_keywords : List String :=
  ["more about", "tell me more", "expand on", "elaborate", "details",
   "additional info", "what about", "how about", "why", "how", "when"]

/-- Clarification keywords (dialog.py line 196). -/
def clarifKws : List String :=
  ["what do you mean", "clarify", "explain", "confused", "don" ++ apos ++ "t understand"]

/-- Feedback keywords (dialog.py line 200). -/
def feedbackKws : List String :=
  ["good job", "well done", "thanks", "thank you", "helpful", "not helpful",
   "useless", "wrong"]

/-- Positive-sentiment words (dialog.py line 201). -/
def positiveWords : List String := ["good", "well", "thanks", "thank", "helpful"]

/-- The nine intent type constants of `DialogManager` (dialog.py lines
125-133). -/
def intentTypeStrings : List String :=
  ["greeting", "research_request", "followup_question", "clarification_request",
   "comparison_request", "system_command", "user_feedback", "small_talk", "unknown"]

/-- `re.search(r'(\{.*\})', raw, re.DOTALL)` with greedy `.*`: the substring
from the first opening brace to the last closing brace, provided the brace
pair is properly ordered. -/
def extractBraced (s : String) : Option String :=
  match s.data.findIdx? (fun c => c == Char.ofNat 123) with
  | none => none
  | some i =>
    match s.data.reverse.findIdx? (fun c => c == Char.ofNat 125) with
    | none => none
    | some rj =>
      let j := s.data.length - 1 - rj
      if i < j then some ⟨(s.data.drop i).take (j - i + 1)⟩ else none

/-- `DialogManager._classify_with_llm` (dialog.py lines 223-311).  The crew
construction and `crew.kickoff()` are the generation capability: `llmRaw =
some raw` is a successful call returning `result.raw = raw`, `none` is any
exception before parsing (caught at line 308, yielding Unknown).  A parse
producing a non-dictionary makes `intent_data.get` raise `AttributeError`,
which the same handler catches. -/
def classify_with_llm : Option String → Nat → String → DialogIntent
  | none, now, message =>
    DialogIntent.make (Json.str "unknown") (Json.obj [("message", Json.str message)]) now
  | some raw, now, message =>
    match json_loads ((extractBraced raw).getD raw) with
    | some intentData =>
      match intentData with
      | .obj d =>
        let intent := DialogIntent.make
          ((pyLookup d "intent_type").getD (Json.str "unknown"))
          ((pyLookup d "parameters").getD (Json.obj [])) now
        { intent with confidence := (pyLookup d "confidence").getD (Json.num ⟨7, 1⟩) }
      | _ =>
        DialogIntent.make (Json.str "unknown") (Json.obj [("message", Json.str message)]) now
    | none =>
      if containsStr (pyLower raw) "research" then
        DialogIntent.make (Json.str "research_request")
          (Json.obj [("topic", Json.str message)]) now
      else if containsStr (pyLower raw) "followup" then
        DialogIntent.make (Json.str "followup_question")
          (Json.obj [("question", Json.str message)]) now
      else
        DialogIntent.make (Json.str "unknown") (Json.obj [("message", Json.str message)]) now

/-- `DialogManager.classify_intent` (dialog.py lines 143-221): ordered rule
cascade, first match wins, with the generation-capability fallback last.
The Python local `message_lower = message.lower().strip()` is inlined as
`pyStrip (pyLower message)`. -/
def classify_intent (llmRaw : Option String) (now : Nat) (message : String)
    (ctx : DialogContext) : DialogIntent :=
  if wordSearchAny (pyStrip (pyLower message)) resetKws then
    DialogIntent.make (Json.str "system_command") (Json.obj [("command", Json.str "reset")]) now
  else if wordSearchAny (pyStrip (pyLower message)) helpKws then
    DialogIntent.make (Json.str "system_command") (Json.obj [("command", Json.str "help")]) now
  else if (pyWords (pyStrip (pyLower message))).length ≤ 3 &&
      wordSearchAny (pyStrip (pyLower message)) greetKws then
    DialogIntent.make (Json.str "greeting") Json.null now
  else if research_keywords.any (fun k => containsStr (pyStrip (pyLower message)) k) then
    DialogIntent.make (Json.str "research_request")
      (Json.obj [("topic", Json.str (pyStrip
                   (match research_keywords.find?
                       (fun k => containsStr (pyStrip (pyLower message)) k) with
                    | some kw => reSubWord kw message
                    | none => message))),
                 ("original_query", Json.str message)]) now
  else if pyTruthy ctx.current_topic &&
      (followup_keywords.any (fun k => containsStr (pyStrip (pyLower message)) k) ||
        pyEndsWith (pyStrip (pyLower message)) "?") then
    DialogIntent.make (Json.str "followup_question")
      (Json.obj [("topic", ctx.current_topic),
                 ("question", Json.str message),
                 ("related_to", ctx.current_research_id)]) now
  else if containsStr (pyStrip (pyLower message)) "compare" ||
      containsStr (pyStrip (pyLower message)) "vs" ||
      containsStr (pyStrip (pyLower message)) "versus" ||
      containsStr (pyStrip (pyLower message)) "differences between" then
    DialogIntent.make (Json.str "comparison_request")
      (Json.obj [("comparison_query", Json.str message)]) now
  else if wordSearchAny (pyStrip (pyLower message)) clarifKws then
    DialogIntent.make (Json.str "clarification_request")
      (Json.obj [("request", Json.str message)]) now
  else if wordSearchAny (pyStrip (pyLower message)) feedbackKws then
    DialogIntent.make (Json.str "user_feedback")
      (Json.obj [("sentiment", Json.str
                   (if positiveWords.any
                       (fun w => containsStr (pyStrip (pyLower message)) w) then
                     "positive" else "negative")),
                 ("feedback", Json.str message)]) now
  else if (pyWords (pyStrip (pyLower message))).length ≤ 5 then
    DialogIntent.make (Json.str "small_talk") (Json.obj [("message", Json.str message)]) now
  else if pyTruthy ctx.current_topic then
    DialogIntent.make (Json.str "followup_question")
      (Json.obj [("topic", ctx.current_topic),
                 ("question", Json.str message),
                 ("related_to", ctx.current_research_id)]) now
  else if !ctx.history.isEmpty then
    classify_with_llm llmRaw now message
  else
    DialogIntent.make (Json.str "unknown") (Json.obj [("message", Json.str message)]) now

/-- Reset acknowledgment (dialog.py line 355). -/
def resetAck : String :=
  "I" ++ apos ++ "ve reset our conversation. How can I help you today?"

/-- `DialogManager._generate_help_message` (dialog.py lines 386-403). -/
def helpMessage : String :=
  "\nI" ++ apos ++ "m your AI Market Research Assistant, designed to help you with comprehensive market research. Here" ++ apos ++ "s what I can do:\n\n" ++
  "• **Research Topics**: Ask me to research any market, industry, technology, or company\n" ++
  "• **Answer Follow-ups**: Ask clarifying questions about any research I provide\n" ++
  "• **Compare Items**: Request comparisons between companies, products, or markets\n" ++
  "• **Voice Interaction**: Toggle voice mode to speak with me directly\n\n" ++
  "To get started, try asking something like:\n" ++
  "- \"Research the electric vehicle market in Europe\"\n" ++
  "- \"Tell me about emerging fintech trends\"\n" ++
  "- \"Analyze the competitive landscape for cloud storage providers\"\n" ++
  "- \"What" ++ apos ++ "s the market size for plant-based meat alternatives?\"\n\n" ++
  "You can reset our conversation anytime by saying \"reset\" or \"start over\".\n        "

/-- First-interaction greeting (dialog.py lines 408-412). -/
def firstGreeting : String :=
  "\nHello! I" ++ apos ++ "m your AI Market Research Assistant. I can help you with in-depth research on companies, markets, industries, and trends.\n\nWhat topic would you like me to research today?\n            "

/-- Repeat greeting (dialog.py line 414). -/
def againGreeting : String :=
  "Hello again! How can I help with your market research today?"

/-- `DialogManager._generate_greeting` (dialog.py lines 405-414). -/
def generate_greeting (ctx : DialogContext) : String :=
  if ctx.history.length ≤ 2 then firstGreeting else againGreeting

/-- Canned fallback of `_generate_research_response` (dialog.py line 468). -/
def researchFallback (topic : Json) : String :=
  "I" ++ apos ++ "d be happy to research " ++
    (if pyTruthy topic then pyStr topic else "that topic") ++
    " for you. Let me gather some information and I" ++ apos ++
    "ll provide you with insights shortly."

/-- `DialogManager._generate_research_response` (dialog.py lines 416-468):
reads the parameter bag, runs the generation capability, and on success also
stores the topic in `context.current_topic`.  A non-dictionary parameter bag
raises at the first `.get` (line 423) and the `except` handler then trips
over the unbound `topic` name, so the exception escapes with the context as
is; a failing generation call is caught and answered with the canned
fallback. -/
def generate_research_response (researchRaw : Option String) (intent : DialogIntent)
    (ctx : DialogContext) : Except DialogContext (String × DialogContext) :=
  match intent.parameters with
  | .obj d =>
    let topic := (pyLookup d "topic").getD (Json.str "")
    let original_query := (pyLookup d "original_query").getD topic
    let comparison_query := (pyLookup d "comparison_query").getD (Json.str "")
    let query_text := if intent.type == Json.str "comparison_request" then
        comparison_query else original_query
    match researchRaw with
    | some raw =>
      .ok (raw, { ctx with current_topic := if pyTruthy topic then topic else query_text })
    | none => .ok (researchFallback topic, ctx)
  | _ => .error ctx

/-- Canned fallback of `_generate_followup_response` (dialog.py line 517). -/
def followupFallback : String :=
  "That" ++ apos ++
    "s a great follow-up question. Let me explore that aspect in more detail for you."

/-- `DialogManager._generate_followup_response` (dialog.py lines 470-517):
every failure inside the `try` (including a non-dictionary parameter bag at
the `.get` calls and a failing generation call) is caught and answered with
the canned fallback. -/
def generate_followup_response (followupRaw : Option String) (intent : DialogIntent)
    (_ctx : DialogContext) : String :=
  match intent.parameters with
  | .obj _ =>
    match followupRaw with
    | some raw => raw
    | none => followupFallback
  | _ => followupFallback

/-- `DialogManager._generate_clarification` (dialog.py lines 519-529). -/
def generate_clarification (ctx : DialogContext) : String :=
  match (ctx.history.reverse.filter (fun m => m.role == "assistant")) with
  | last :: _ =>
    "I apologize if I wasn" ++ apos ++ "t clear. Let me clarify: " ++
      strTake last.content 100 ++
      "... Would you like me to explain any specific part in more detail?"
  | [] =>
    "I apologize for any confusion. Could you please specify what you" ++ apos ++
      "d like me to clarify?"

/-- `DialogManager._acknowledge_feedback` (dialog.py lines 531-538): no
exception handler, so a non-dictionary parameter bag raises out of the
call. -/
def acknowledge_feedback (intent : DialogIntent) : Except String String :=
  match pyGet2 intent.parameters "sentiment" (Json.str "neutral") with
  | .error e => .error e
  | .ok sentiment =>
    if sentiment == Json.str "positive" then
      .ok ("Thank you for the positive feedback! I" ++ apos ++
        "m glad I could help. Is there anything else you" ++ apos ++ "d like to know?")
    else
      .ok ("I appreciate your feedback. I" ++ apos ++
        "ll do my best to improve my responses. What specific information would be more helpful for you?")

/-- `DialogManager._handle_small_talk` (dialog.py lines 540-555): no
exception handler; `.get` on a non-dictionary bag or `.lower()` on a
non-string message raises out of the call. -/
def handle_small_talk (intent : DialogIntent) : Except String String :=
  match pyGet2 intent.parameters "message" (Json.str "") with
  | .error e => .error e
  | .ok m =>
    match m with
    | .str s =>
      let message := pyLower s
      if ["how", "are", "you"].any (fun w => containsStr message w) then
        .ok ("I" ++ apos ++ "m functioning well, thank you for asking! I" ++ apos ++
          "m ready to help with your market research needs. What would you like to know about?")
      else if ["thanks", "thank"].any (fun w => containsStr message w) then
        .ok ("You" ++ apos ++
          "re welcome! I" ++ apos ++ "m happy to assist with your research needs. Let me know if you have any other questions.")
      else if ["who", "are", "you"].any (fun w => containsStr message w) then
        .ok ("I" ++ apos ++ "m an AI Market Research Assistant designed to help you with in-depth research on markets, industries, companies, and trends. How can I assist you today?")
      else
        .ok ("I" ++ apos ++ "m here to help with market research. Would you like me to research a specific topic or company for you?")
    | _ => .error "AttributeError: object has no attribute lower"

/-- `DialogManager._handle_unknown_intent` (dialog.py lines 557-562). -/
def handle_unknown_intent (ctx : DialogContext) : String :=
  if pyTruthy ctx.current_topic then
    "I see we were discussing " ++ pyStr ctx.current_topic ++
      ". Would you like me to research a specific aspect of this topic, or would you prefer to explore something else?"
  else
    "I" ++ apos ++ "m not quite sure what you" ++ apos ++
      "re asking. I can help with market research on companies, industries, or trends. Could you provide more details about what you" ++ apos ++ "d like to know?"

/-- Outcomes of the generation-capability calls one `process_message` turn
can make: the classification fallback crew, the research/comparison response
crew and the follow-up response crew.  `none` stands for a raised call. -/
structure LlmOracle where
  classifyRaw : Option String
  researchRaw : Option String
  followupRaw : Option String
deriving Repr

/-- Conversation-state update of `process_message` (dialog.py lines 337-344);
the research branch assigns `conversation_state` first and then performs
`intent.parameters.get("topic")`, which raises on a non-dictionary bag, so
the error carries the half-updated context. -/
def stateUpdate (intent : DialogIntent) (ctx : DialogContext) :
    Except DialogContext DialogContext :=
  if intent.type == Json.str "greeting" then
    .ok { ctx with conversation_state := "greeting" }
  else if intent.type == Json.str "research_request" then
    let c := { ctx with conversation_state := "researching" }
    match pyGet1 intent.parameters "topic" with
    | .ok t => .ok { c with current_topic := t }
    | .error _ => .error c
  else if intent.type == Json.str "followup_question" then
    .ok { ctx with conversation_state := "discussing" }
  else .ok ctx

/-- Intent dispatch of `process_message` (dialog.py lines 346-379), yielding
the response and the context it leaves behind; `.error` is an uncaught
Python exception carrying the context at raise time. -/
def dispatch (llm : LlmOracle) (now : Nat) (intent : DialogIntent)
    (ctx : DialogContext) : Except DialogContext (String × DialogContext) :=
  if intent.type == Json.str "system_command" then
    match pyGet1 intent.parameters "command" with
    | .error _ => .error ctx
    | .ok command =>
      if command == Json.str "reset" then
        .ok (resetAck, DialogContext.init ctx.session_id now)
      else if command == Json.str "help" then
        .ok (helpMessage, ctx)
      else .ok ("", ctx)
  else if intent.type == Json.str "greeting" then
    .ok (generate_greeting ctx, ctx)
  else if intent.type == Json.str "research_request" ||
      intent.type == Json.str "comparison_request" then
    generate_research_response llm.researchRaw intent ctx
  else if intent.type == Json.str "followup_question" then
    .ok (generate_followup_response llm.followupRaw intent ctx, ctx)
  else if intent.type == Json.str "clarification_request" then
    .ok (generate_clarification ctx, ctx)
  else if intent.type == Json.str "user_feedback" then
    match acknowledge_feedback intent with
    | .ok r => .ok (r, ctx)
    | .error _ => .error ctx
  else if intent.type == Json.str "small_talk" then
    match handle_small_talk intent with
    | .ok r => .ok (r, ctx)
    | .error _ => .error ctx
  else
    .ok (handle_unknown_intent ctx, ctx)

/-- `DialogManager.process_message` (dialog.py lines 319-384).  `now` stands
for every `datetime.now()` reading of the turn, `idBase` and `idBase + 1`
for the two `uuid.uuid4()` message ids.  The result is the `(response,
intent)` pair together with the context the turn leaves behind; `.error` is
an uncaught exception carrying the mutated context. -/
def process_message (llm : LlmOracle) (now idBase : Nat) (message : String)
    (ctx : DialogContext) :
    Except DialogContext (String × DialogIntent × DialogContext) :=
  let ctx1 := add_message now idBase "user" message Json.null ctx
  let intent := classify_intent llm.classifyRaw now message ctx1
  let ctx2 := { ctx1 with last_intent := some intent }
  match stateUpdate intent ctx2 with
  | .error cE => .error cE
  | .ok ctx3 =>
    match dispatch llm now intent ctx3 with
    | .error cE => .error cE
    | .ok (response, ctx4) =>
      .ok (response, intent, add_message now (idBase + 1) "assistant" response Json.null ctx4)

/-- The list of JSON values that are legal `Intent.type`s. -/
def intentTypeEnum : List Json := intentTypeStrings.map Json.str

/-- The intent shape on which `process_message` resets the context
(dialog.py lines 349-354): a system command whose `command` parameter
equals `"reset"`. -/
def resetTaken (intent : DialogIntent) : Bool :=
  intent.type == Json.str "system_command" &&
    (match intent.parameters with
     | .obj d => ((pyLookup d "command").getD .null) == Json.str "reset"
     | _ => false)

/-- Oracle for a turn in which no generation call succeeds. -/
def llm0 : LlmOracle := ⟨none, none, none⟩

/-- A fresh dialog context fixture. -/
def ctx0 : DialogContext := DialogContext.init "s" 0

/-- An utterance matching none of the rule-based patterns (7 tokens, no
keywords), forcing the generation fallback once history is non-empty. -/
def animalsMsg : String := "zebra quokka wombat axolotl pangolin lemur okapi"

/-- Fallback classification outcome whose JSON carries an out-of-enum
intent type and an out-of-range confidence. -/
def llmBanana : LlmOracle :=
  ⟨some ("\x7b\"intent_type\": \"banana\", \"confidence\": 2.5\x7d"), none, none⟩

/-- Fallback classification outcome whose JSON carries a non-dictionary
`parameters` value. -/
def llmFeedback : LlmOracle :=
  ⟨some ("\x7b\"intent_type\": \"user_feedback\", \"parameters\": [1]\x7d"), none, none⟩

/-- A dialog context holding prior state, used to observe the reset. -/
def ctxJunk : DialogContext :=
  { session_id := "s"
    history := [⟨5, "user", "old", 3, Json.obj []⟩]
    current_topic := Json.str "ev"
    current_research_id := Json.str "rid"
    user_preferences := Json.obj []
    last_intent := none
    conversation_state := "discussing"
    metadata := ⟨1, 2⟩ }

/-- Research parameters fixture with query `"ev"`. -/
def pEV : ResearchParameters := ⟨"ev", "detailed", "global", "2 years", "topic"⟩

/-- Research parameters fixture with an empty query. -/
def pEmptyQ : ResearchParameters := ⟨"", "detailed", "global", "2 years", "topic"⟩

/-- Application config fixture. -/
def cfg0 : AppConfig := ⟨"gpt-4o"⟩

/-- Placeholder task used as the out-of-range default of `List.getD`. -/
def noTask : MRTask := ⟨"", "", "", []⟩

/-- A crew faithful to the stage instructions of the run whose
`create_research_tasks` draw was `"aaaa"` on query `"ev"`: each stage's
output is saved under the cache key embedded in its task description. -/
def honestKickoff : List MRTask → Cache → Except String (String × Cache) := fun _ c =>
  .ok ("SUMMARY", cachePut (cachePut (cachePut (cachePut c
    "research_ev_aaaa_raw" "RAW") "research_ev_aaaa_analysis" "ANALYSIS")
    "research_ev_aaaa_verified" "VERIFIED") "research_ev_aaaa_final" "FINAL REPORT")

/-- A crew that leaves the cache unchanged and returns a summary. -/
def plainKickoff : List MRTask → Cache → Except String (String × Cache) :=
  fun _ c => .ok ("SUMMARY", c)

/-- A generation capability that always fails (stage 2 raising aborts the
whole `crew.kickoff`). -/
def failingKickoff : List MRTask → Cache → Except String (String × Cache) :=
  fun _ _ => .error "stage 2 failed"

/-- The candidate object the fallback parse path of `_classify_with_llm`
produces, when it produces one. -/
def fallbackParsedObj (raw : String) : Option (List (String × Json)) :=
  match json_loads ((extractBraced raw).getD raw) with
  | some (.obj d) => some d
  | _ => none

/-- A context with one prior message, so the classifier's history guard lets
the generation fallback run. -/
def ctxSeed : DialogContext := add_message 0 0 "user" "seed" Json.null ctx0

/-- The spec's intent invariant: the type is one of the nine enumerated
values and the confidence is a number in the closed interval [0,1]. -/
def intentInvariant (i : DialogIntent) : Prop :=
  i.type ∈ intentTypeEnum ∧
    ∃ dc : Dec, i.confidence = Json.num dc ∧ 0 ≤ dc.toRat ∧ dc.toRat ≤ 1

theorem strDataAppend (s t : String) : (s ++ t).data = s.data ++ t.data := rfl

theorem add_message_history (now msgId : Nat) (role content : String) (meta : Json)
    (ctx : DialogContext) :
    (add_message now msgId role content meta ctx).history =
      ctx.history ++ [{ id := msgId, role := role, content := content, timestamp := now
                        meta := if pyTruthy meta then meta else Json.obj [] }] := rfl

/-- C10: `ResearchParameters.from_user_input` fixes depth `"detailed"`,
location `"global"`, time frame `"2 years"`, keeps the query, and chooses
input type `"company"` exactly when the lower-cased query ends in
`" company"`, `"topic"` otherwise. -/
theorem c10_from_user_input (q : String) :
    (ResearchParameters.from_user_input q).query = q ∧
    (ResearchParameters.from_user_input q).depth = "detailed" ∧
    (ResearchParameters.from_user_input q).location = "global" ∧
    (ResearchParameters.from_user_input q).time_frame = "2 years" ∧
    (ResearchParameters.from_user_input q).input_type =
      (if pyEndsWith (pyLower q) " company" = true then "company" else "topic") ∧
    ((ResearchParameters.from_user_input q).input_type = "company" ↔
      pyEndsWith (pyLower q) " company" = true) := by
  refine ⟨rfl, rfl, rfl, rfl, ?_, ?_⟩ <;>
    by_cases h : pyEndsWith (pyLower q) " company" = true <;>
      simp [ResearchParameters.from_user_input, h]

/-- Witness for C10 at concrete queries ending and not ending in
`" company"`. -/
theorem c10_witness :
    (ResearchParameters.from_user_input "Tesla company").input_type = "company" ∧
    (ResearchParameters.from_user_input "Tesla").input_type = "topic" := by
  refine ⟨(c10_from_user_input "Tesla company").2.2.2.2.2.mpr (by rfl), ?_⟩
  have h := (c10_from_user_input "Tesla").2.2.2.2.1
  simpa using h

/-- C2: whenever the crew execution raises, `conduct_research` returns the
error-shaped result dictionary — query and parameters preserved, `error`
set, no `final_report`/`raw_data`/`analysis`/`verified`/`result_summary`
keys, and metadata carrying a research id, timestamp, elapsed time and
status `"error"` — instead of raising to the caller. -/
theorem c2_error_shape (cfg : AppConfig) (uuids : List String) (t0 t1 : Nat)
    (kickoff : List MRTask → Cache → Except String (String × Cache))
    (params : ResearchParameters) (cache : Cache) (e : String)
    (h : kickoff (create_research_tasks (uuids.getD 0 "") params) cache = .error e) :
    (conduct_research cfg uuids t0 t1 kickoff params cache).1.query = params.query ∧
    (conduct_research cfg uuids t0 t1 kickoff params cache).1.parameters = params ∧
    (conduct_research cfg uuids t0 t1 kickoff params cache).1.error = some e ∧
    (conduct_research cfg uuids t0 t1 kickoff params cache).1.final_report = none ∧
    (conduct_research cfg uuids t0 t1 kickoff params cache).1.raw_data = none ∧
    (conduct_research cfg uuids t0 t1 kickoff params cache).1.analysis = none ∧
    (conduct_research cfg uuids t0 t1 kickoff params cache).1.verified = none ∧
    (conduct_research cfg uuids t0 t1 kickoff params cache).1.result_summary = none ∧
    (conduct_research cfg uuids t0 t1 kickoff params cache).1.metadata.research_id =
      uuids.getD 2 "" ∧
    (conduct_research cfg uuids t0 t1 kickoff params cache).1.metadata.timestamp = t1 ∧
    (conduct_research cfg uuids t0 t1 kickoff params cache).1.metadata.elapsed_time =
      t1 - t0 ∧
    (conduct_research cfg uuids t0 t1 kickoff params cache).1.metadata.status =
      some "error" := by
  simp only [conduct_research]
  rw [h]
  exact ⟨rfl, rfl, rfl, rfl, rfl, rfl, rfl, rfl, rfl, rfl, rfl, rfl⟩

/-- Witness for C2: a capability failing on stage 2 yields the error shape. -/
theorem c2_witness :
    (conduct_research cfg0 ["aaaa", "bbbb", "cccc"] 0 5 failingKickoff pEV []).1.query =
      pEV.query ∧
    (conduct_research cfg0 ["aaaa", "bbbb", "cccc"] 0 5 failingKickoff pEV []).1.parameters =
      pEV ∧
    (conduct_research cfg0 ["aaaa", "bbbb", "cccc"] 0 5 failingKickoff pEV []).1.error =
      some "stage 2 failed" ∧
    (conduct_research cfg0 ["aaaa", "bbbb", "cccc"] 0 5 failingKickoff pEV []).1.final_report =
      none ∧
    (conduct_research cfg0 ["aaaa", "bbbb", "cccc"] 0 5 failingKickoff pEV []).1.raw_data =
      none ∧
    (conduct_research cfg0 ["aaaa", "bbbb", "cccc"] 0 5 failingKickoff pEV []).1.analysis =
      none ∧
    (conduct_research cfg0 ["aaaa", "bbbb", "cccc"] 0 5 failingKickoff pEV []).1.verified =
      none ∧
    (conduct_research cfg0 ["aaaa", "bbbb", "cccc"] 0 5 failingKickoff pEV []).1.result_summary =
      none ∧
    (conduct_research cfg0 ["aaaa", "bbbb", "cccc"] 0 5 failingKickoff pEV []).1.metadata.research_id =
      ["aaaa", "bbbb", "cccc"].getD 2 "" ∧
    (conduct_research cfg0 ["aaaa", "bbbb", "cccc"] 0 5 failingKickoff pEV []).1.metadata.timestamp =
      5 ∧
    (conduct_research cfg0 ["aaaa", "bbbb", "cccc"] 0 5 failingKickoff pEV []).1.metadata.elapsed_time =
      5 - 0 ∧
    (conduct_research cfg0 ["aaaa", "bbbb", "cccc"] 0 5 failingKickoff pEV []).1.metadata.status =
      some "error" :=
  c2_error_shape cfg0 ["aaaa", "bbbb", "cccc"] 0 5 failingKickoff pEV [] "stage 2 failed" rfl

set_option maxRecDepth 100000 in
/-- C1: evidence for the cache-key mismatch.  The five stage descriptions
created with id draw `"aaaa"` embed the keys `research_ev_aaaa_*`, and a
crew faithful to those instructions caches the synthesis output under
`research_ev_aaaa_final`; yet the pipeline loads `research_ev_bbbb_*`
(built from its second, fresh id draw), sets `metadata.research_id` to
`"bbbb"`, and returns the cache-miss sentinel as `final_report`. -/
theorem c1_cache_key_mismatch :
    containsStr ((create_research_tasks "aaaa" pEV).getD 1 noTask).description
      "research_ev_aaaa_raw" = true ∧
    containsStr ((create_research_tasks "aaaa" pEV).getD 2 noTask).description
      "research_ev_aaaa_analysis" = true ∧
    containsStr ((create_research_tasks "aaaa" pEV).getD 3 noTask).description
      "research_ev_aaaa_verified" = true ∧
    containsStr ((create_research_tasks "aaaa" pEV).getD 4 noTask).description
      "research_ev_aaaa_final" = true ∧
    cacheLoad (conduct_research cfg0 ["aaaa", "bbbb", "cccc"] 0 5 honestKickoff pEV []).2
      "research_ev_aaaa_final" = "FINAL REPORT" ∧
    (conduct_research cfg0 ["aaaa", "bbbb", "cccc"] 0 5 honestKickoff pEV []).1.final_report =
      some "No data found in cache for this key" ∧
    (conduct_research cfg0 ["aaaa", "bbbb", "cccc"] 0 5 honestKickoff pEV []).1.metadata.research_id =
      "bbbb" ∧
    ("bbbb" : String) ≠ "aaaa" := by
  exact ⟨rfl, rfl, rfl, rfl, rfl, rfl, rfl, by decide⟩

/-- C9 counterexample: an empty query is accepted by parameter
construction, all five stage tasks are created, and the pipeline runs to a
success-shaped result — no validation error fires before task
construction. -/
theorem c9_counterexample :
    ResearchParameters.construct (some "") = .ok pEmptyQ ∧
    (create_research_tasks "aaaa" pEmptyQ).length = 5 ∧
    (conduct_research cfg0 ["aaaa", "bbbb", "cccc"] 0 5 plainKickoff pEmptyQ []).1.error =
      none ∧
    (conduct_research cfg0 ["aaaa", "bbbb", "cccc"] 0 5 plainKickoff pEmptyQ []).1.final_report =
      some "No data found in cache for this key" := ⟨rfl, rfl, rfl, rfl⟩

/-- C9: only a missing query fails fast (pydantic required-field
validation at construction); an empty query is accepted, the five stage
tasks are constructed, and the run proceeds to a success-shaped result. -/
theorem c9_amended :
    ResearchParameters.construct none = .error "ValidationError: query field required" ∧
    ResearchParameters.construct (some "") = .ok pEmptyQ ∧
    (create_research_tasks "bbbb" pEmptyQ).length = 5 ∧
    (conduct_research cfg0 ["xxxx", "yyyy", "zzzz"] 0 9 plainKickoff pEmptyQ []).1.metadata.status =
      none := ⟨rfl, rfl, rfl, rfl⟩

theorem splitNl_cons_nl (r : List Char) : splitNl ('\n' :: r) = [] :: splitNl r := by
  simp [splitNl]

theorem splitNl_ne_nil (l : List Char) : splitNl l ≠ [] := by
  induction l with
  | nil => simp [splitNl]
  | cons c rest ih =>
    by_cases h : c = '\n' <;> simp [splitNl, h]
    cases hs : splitNl rest <;> simp

theorem splitNl_append_nl (t r : List Char) (h : t.contains '\n' = false) :
    splitNl (t ++ '\n' :: r) = t :: splitNl r := by
  induction t with
  | nil => simpa using splitNl_cons_nl r
  | cons c t' ih =>
    simp only [List.contains_cons, Bool.or_eq_false_iff, beq_eq_false_iff_ne, ne_eq] at h
    have hc' : ¬ (c = '\n') := fun hcc => h.1 (hcc.symm)
    have ht' : t'.contains '\n' = false := by
      by_contra hcon
      exact absurd (List.contains_eq_any_beq t' '\n' ▸ (Bool.not_eq_false _).mp hcon)
        (by simpa [List.contains_eq_any_beq] using h.2)
    have ihr := ih ht'
    simp only [List.cons_append, splitNl, if_neg hc']
    rw [show (t'.append ('\n' :: r)) = t' ++ '\n' :: r from rfl, ihr]

theorem splitNl_no_nl (t : List Char) (h : t.contains '\n' = false) :
    splitNl t = [t] := by
  induction t with
  | nil => simp [splitNl]
  | cons c t' ih =>
    simp only [List.contains_cons, Bool.or_eq_false_iff, beq_eq_false_iff_ne, ne_eq] at h
    have hc' : ¬ (c = '\n') := fun hcc => h.1 (hcc.symm)
    have ht' : t'.contains '\n' = false := by
      by_contra hcon
      exact absurd (List.contains_eq_any_beq t' '\n' ▸ (Bool.not_eq_false _).mp hcon)
        (by simpa [List.contains_eq_any_beq] using h.2)
    simp only [splitNl, if_neg hc']
    rw [ih ht']

theorem processLine_h1 (st : ExtState) (u : List Char)
    (h : startsWithL ['#', ' '] (pyStripL u) = true) : processLine st u = st := by
  unfold processLine
  have hne : (pyStripL u).isEmpty = false := by
    cases hu : pyStripL u with
    | nil => rw [hu] at h; simp [startsWithL, List.isPrefixOf] at h
    | cons a l => simp
  simp [hne, h]

theorem processLine_h3 (st : ExtState) (u : List Char)
    (h : startsWithL ['#', '#', '#', ' '] (pyStripL u) = true) :
    processLine st u =
      { st with current_content :=
          st.current_content ++ ["**" ++ removeAll ⟨pyStripL u⟩ "### " ++ "**"] } := by
  unfold processLine
  obtain ⟨rest, hrest⟩ : ∃ rest, pyStripL u = '#' :: '#' :: '#' :: ' ' :: rest := by
    rcases hu : pyStripL u with _ | ⟨a, _ | ⟨b, _ | ⟨c, _ | ⟨d, rest⟩⟩⟩⟩ <;>
      rw [hu] at h <;> simp [startsWithL, List.isPrefixOf] at h
    obtain ⟨ha, hb, hc, hd⟩ := h
    subst ha hb hc hd
    exact ⟨rest, rfl⟩
  rw [hrest]
  simp [startsWithL, List.isPrefixOf]

theorem processLine_content (st : ExtState) (u : List Char)
    (hne : (pyStripL u).isEmpty = false)
    (h1 : startsWithL ['#', ' '] (pyStripL u) = false)
    (h2 : startsWithL ['#', '#', ' '] (pyStripL u) = false)
    (h3 : startsWithL ['#', '#', '#', ' '] (pyStripL u) = false) :
    processLine st u =
      { st with current_content := st.current_content ++ [(⟨pyStripL u⟩ : String)] } := by
  unfold processLine
  simp [hne, h1, h2, h3]

theorem processLine_hdrFoo (st : ExtState) :
    processLine st ("## Foo".data) =
      ⟨(if st.current_content ≠ [] then
          pyDictInsert st.sections st.current_section st.current_content
        else st.sections), "foo", []⟩ := rfl

/-- C6: the section extractor maps the specified report to exactly
`{"overview": ["Line A"], "trends": ["Line B", "Line C"]}`; and in general a
leading blank line is skipped, an H1 line is dropped, an H3 line is appended
to the open section's content in bold markers, content before any H2
accumulates under `"overview"`, and the final open section is committed
exactly when it has content. -/
theorem c6_extract_sections (t r : String) (u : List Char) (st : ExtState)
    (hnl : t.data.contains '\n' = false)
    (hH1 : startsWithL ['#', ' '] (pyStripL t.data) = true)
    (hH3 : startsWithL ['#', '#', '#', ' '] (pyStripL u) = true) :
    extract_sections "# Title\n## Overview\nLine A\n## Trends\nLine B\nLine C\n" =
      [("overview", ["Line A"]), ("trends", ["Line B", "Line C"])] ∧
    extract_sections ("\n" ++ r) = extract_sections r ∧
    extract_sections (t ++ "\n" ++ r) = extract_sections r ∧
    processLine st u =
      { st with current_content :=
          st.current_content ++ ["**" ++ removeAll ⟨pyStripL u⟩ "### " ++ "**"] } ∧
    extract_sections "x\n## T\ny" = [("overview", ["x"]), ("t", ["y"])] ∧
    extract_sections "## S" = [] ∧
    extract_sections "## S\nY" = [("s", ["Y"])] := by
  refine ⟨rfl, ?_, ?_, processLine_h3 st u hH3, rfl, rfl, rfl⟩
  · have e : ("\n" ++ r).data = '\n' :: r.data := by
      rw [strDataAppend]; rfl
    unfold extract_sections
    rw [e, splitNl_cons_nl]
    rfl
  · have e : (t ++ "\n" ++ r).data = t.data ++ '\n' :: r.data := by
      simp only [strDataAppend, List.append_assoc]; rfl
    unfold extract_sections
    rw [e, splitNl_append_nl t.data r.data hnl, List.foldl_cons,
      processLine_h1 _ _ hH1]

/-- Witness for C6: the H1-drop and H3-bolding clauses at concrete inputs. -/
theorem c6_witness :
    extract_sections ("# Some Title" ++ "\n" ++ "Hi") = extract_sections "Hi" ∧
    processLine ⟨[], "overview", ["w"]⟩ ("### Sub2".data) =
      ⟨[], "overview", ["w", "**Sub2**"]⟩ := by
  have h := c6_extract_sections "# Some Title" "Hi" ("### Sub2".data)
    ⟨[], "overview", ["w"]⟩ (by rfl) (by rfl) (by rfl)
  exact ⟨h.2.2.1, by rw [h.2.2.2.1]; rfl⟩

/-- C7 counterexample: a report with two `## Foo` sections, each with
content, yields a single `"foo"` entry holding only the later section's
content — the earlier entry is overwritten, not kept distinct. -/
theorem c7_counterexample :
    extract_sections "## Foo\nA\n## Foo\nB" = [("foo", ["B"])] ∧
    ¬ (extract_sections "## Foo\nA\n## Foo\nB").length = 2 := by
  exact ⟨rfl, by decide⟩

/-- C7: a later duplicate `## Foo` heading with content overwrites the
earlier section's content in place (Python-dict last-write-wins at the first
insertion position): for any two plain content lines `a` and `b`, the report
`## Foo\na\n## Foo\nb` extracts to the single entry `{"foo": [strip b]}`. -/
theorem c7_amended (a b : String)
    (hna : a.data.contains '\n' = false) (hnb : b.data.contains '\n' = false)
    (hea : (pyStripL a.data).isEmpty = false)
    (heb : (pyStripL b.data).isEmpty = false)
    (h1a : startsWithL ['#', ' '] (pyStripL a.data) = false)
    (h2a : startsWithL ['#', '#', ' '] (pyStripL a.data) = false)
    (h3a : startsWithL ['#', '#', '#', ' '] (pyStripL a.data) = false)
    (h1b : startsWithL ['#', ' '] (pyStripL b.data) = false)
    (h2b : startsWithL ['#', '#', ' '] (pyStripL b.data) = false)
    (h3b : startsWithL ['#', '#', '#', ' '] (pyStripL b.data) = false) :
    extract_sections ("## Foo\n" ++ a ++ "\n## Foo\n" ++ b) =
      [("foo", [(⟨pyStripL b.data⟩ : String)])] := by
  have e : ("## Foo\n" ++ a ++ "\n## Foo\n" ++ b).data =
      ['#', '#', ' ', 'F', 'o', 'o'] ++ '\n' ::
        (a.data ++ '\n' :: (['#', '#', ' ', 'F', 'o', 'o'] ++ '\n' :: b.data)) := by
    simp only [strDataAppend, List.append_assoc]; rfl
  unfold extract_sections
  rw [e, splitNl_append_nl _ _ (by rfl), splitNl_append_nl _ _ hna,
    splitNl_append_nl _ _ (by rfl), splitNl_no_nl _ hnb]
  simp only [List.foldl_cons, List.foldl_nil]
  rw [show (['#', '#', ' ', 'F', 'o', 'o'] : List Char) = "## Foo".data from rfl,
    processLine_hdrFoo, processLine_content _ _ hea h1a h2a h3a, processLine_hdrFoo,
    processLine_content _ _ heb h1b h2b h3b]
  simp [pyDictInsert]

/-- Witness for C7 at concrete content lines. -/
theorem c7_witness :
    extract_sections "## Foo\nAlpha\n## Foo\nBeta" = [("foo", ["Beta"])] := by
  have h := c7_amended "Alpha" "Beta" (by rfl) (by rfl) (by rfl) (by rfl)
    (by rfl) (by rfl) (by rfl) (by rfl) (by rfl) (by rfl)
  rw [show ("## Foo\nAlpha\n## Foo\nBeta" : String) =
    "## Foo\n" ++ "Alpha" ++ "\n## Foo\n" ++ "Beta" from rfl]
  rw [h]
  rfl

/-- C4 counterexample: for `"Research the research market"` the code removes
every word-boundary occurrence of the matched keyword (`re.sub` without a
count), producing topic `"the market"`; removing only the first occurrence,
as claimed, would produce `"the research market"`. -/
theorem c4_counterexample :
    (classify_intent none 0 "Research the research market"
        (DialogContext.init "s" 0)).parameters =
      Json.obj [("topic", Json.str "the market"),
                ("original_query", Json.str "Research the research market")] ∧
    ¬ (("the market" : String) = "the research market") := ⟨rfl, by decide⟩

/-- C4: when an utterance contains a research keyword and no earlier rule
matches, `classify_intent` returns a ResearchRequest whose `original_query`
is the unmodified utterance and whose `topic` is the utterance with every
word-boundary occurrence of the first-matched keyword (plus trailing
whitespace) removed, then stripped; on the spec's example the topic is
`"the electric vehicle market"`. -/
theorem c4_amended (llmRaw : Option String) (now : Nat) (message : String)
    (ctx : DialogContext)
    (h1 : wordSearchAny (pyStrip (pyLower message)) resetKws = false)
    (h2 : wordSearchAny (pyStrip (pyLower message)) helpKws = false)
    (h3 : ((pyWords (pyStrip (pyLower message))).length ≤ 3 &&
      wordSearchAny (pyStrip (pyLower message)) greetKws) = false)
    (h4 : research_keywords.any
      (fun k => containsStr (pyStrip (pyLower message)) k) = true) :
    ∃ kw, research_keywords.find?
        (fun k => containsStr (pyStrip (pyLower message)) k) = some kw ∧
      classify_intent llmRaw now message ctx =
        DialogIntent.make (Json.str "research_request")
          (Json.obj [("topic", Json.str (pyStrip (reSubWord kw message))),
                     ("original_query", Json.str message)]) now := by
  have hfind : (research_keywords.find?
      (fun k => containsStr (pyStrip (pyLower message)) k)).isSome := by
    rw [List.find?_isSome]
    simpa using List.any_eq_true.mp h4
  obtain ⟨kw, hkw⟩ := Option.isSome_iff_exists.mp hfind
  refine ⟨kw, hkw, ?_⟩
  unfold classify_intent
  simp only [h1, h2, h3, h4, hkw, Bool.false_eq_true, if_false, if_true]

/-- Witness for C4 at the spec's example utterance. -/
theorem c4_witness :
    classify_intent none 0 "Research the electric vehicle market"
        (DialogContext.init "s" 0) =
      DialogIntent.make (Json.str "research_request")
        (Json.obj [("topic", Json.str "the electric vehicle market"),
                   ("original_query",
                     Json.str "Research the electric vehicle market")]) 0 := by
  obtain ⟨kw, hkw, heq⟩ := c4_amended none 0 "Research the electric vehicle market"
    (DialogContext.init "s" 0) (by rfl) (by rfl) (by rfl) (by rfl)
  have hres : research_keywords.find?
      (fun k => containsStr
        (pyStrip (pyLower "Research the electric vehicle market")) k) =
      some "research" := by rfl
  rw [hres] at hkw
  have hkw' : kw = "research" := (Option.some.inj hkw).symm
  subst hkw'
  rw [heq]
  rfl

/-- C3 counterexample: the generation fallback's parsed JSON is copied into
the intent unvalidated, so a fallback result of
`{"intent_type": "banana", "confidence": 2.5}` yields an intent whose type
is outside the nine-value enum and whose confidence exceeds 1. -/
theorem c3_counterexample :
    (classify_intent llmBanana.classifyRaw 0 animalsMsg ctxSeed).type =
      Json.str "banana" ∧
    Json.str "banana" ∉ intentTypeEnum ∧
    (classify_intent llmBanana.classifyRaw 0 animalsMsg ctxSeed).confidence =
      Json.num ⟨25, 1⟩ ∧
    ¬ ((⟨25, 1⟩ : Dec).toRat ≤ 1) := by
  refine ⟨rfl, ?_, rfl, ?_⟩
  · simp [intentTypeEnum, intentTypeStrings]
  · norm_num [Dec.toRat]

/-- C3: every intent produced by the rule cascade, by a failed fallback
call, or by the fallback's parse-failure recovery has an enumerated type
and confidence 1.0; when the fallback's JSON parses to an object, the
intent's type and confidence are copied from it unvalidated — so the
claimed invariant holds provided the parsed object supplies an enumerated
`intent_type` and a confidence in [0,1] (or omits them). -/
theorem c3_amended (llmRaw : Option String) (now : Nat) (message : String)
    (ctx : DialogContext)
    (H : ∀ raw d, llmRaw = some raw → fallbackParsedObj raw = some d →
      ((pyLookup d "intent_type").getD (Json.str "unknown")) ∈ intentTypeEnum ∧
      ∃ dc : Dec, ((pyLookup d "confidence").getD (Json.num ⟨7, 1⟩)) = Json.num dc ∧
        0 ≤ dc.toRat ∧ dc.toRat ≤ 1) :
    intentInvariant (classify_intent llmRaw now message ctx) := by
  have hmk : ∀ (t p : Json), t ∈ intentTypeEnum →
      intentInvariant (DialogIntent.make t p now) :=
    fun t p ht => ⟨ht, ⟨10, 1⟩, rfl, by norm_num [Dec.toRat], by norm_num [Dec.toRat]⟩
  have hmem : ∀ t ∈ intentTypeStrings, Json.str t ∈ intentTypeEnum := by
    intro t ht
    exact List.mem_map_of_mem Json.str ht
  unfold classify_intent
  by_cases h1 : wordSearchAny (pyStrip (pyLower message)) resetKws = true
  · rw [if_pos h1]
    exact hmk _ _ (hmem "system_command" (by simp [intentTypeStrings]))
  rw [if_neg h1]
  by_cases h2 : wordSearchAny (pyStrip (pyLower message)) helpKws = true
  · rw [if_pos h2]
    exact hmk _ _ (hmem "system_command" (by simp [intentTypeStrings]))
  rw [if_neg h2]
  by_cases h3 : ((pyWords (pyStrip (pyLower message))).length ≤ 3 &&
      wordSearchAny (pyStrip (pyLower message)) greetKws) = true
  · rw [if_pos h3]
    exact hmk _ _ (hmem "greeting" (by simp [intentTypeStrings]))
  rw [if_neg h3]
  by_cases h4 : (research_keywords.any
      (fun k => containsStr (pyStrip (pyLower message)) k)) = true
  · rw [if_pos h4]
    exact hmk _ _ (hmem "research_request" (by simp [intentTypeStrings]))
  rw [if_neg h4]
  by_cases h5 : (pyTruthy ctx.current_topic &&
      (followup_keywords.any (fun k => containsStr (pyStrip (pyLower message)) k) ||
        pyEndsWith (pyStrip (pyLower message)) "?")) = true
  · rw [if_pos h5]
    exact hmk _ _ (hmem "followup_question" (by simp [intentTypeStrings]))
  rw [if_neg h5]
  by_cases h6 : (containsStr (pyStrip (pyLower message)) "compare" ||
      containsStr (pyStrip (pyLower message)) "vs" ||
      containsStr (pyStrip (pyLower message)) "versus" ||
      containsStr (pyStrip (pyLower message)) "differences between") = true
  · rw [if_pos h6]
    exact hmk _ _ (hmem "comparison_request" (by simp [intentTypeStrings]))
  rw [if_neg h6]
  by_cases h7 : wordSearchAny (pyStrip (pyLower message)) clarifKws = true
  · rw [if_pos h7]
    exact hmk _ _ (hmem "clarification_request" (by simp [intentTypeStrings]))
  rw [if_neg h7]
  by_cases h8 : wordSearchAny (pyStrip (pyLower message)) feedbackKws = true
  · rw [if_pos h8]
    exact hmk _ _ (hmem "user_feedback" (by simp [intentTypeStrings]))
  rw [if_neg h8]
  by_cases h9 : (pyWords (pyStrip (pyLower message))).length ≤ 5
  · rw [if_pos h9]
    exact hmk _ _ (hmem "small_talk" (by simp [intentTypeStrings]))
  rw [if_neg h9]
  by_cases h10 : pyTruthy ctx.current_topic = true
  · rw [if_pos h10]
    exact hmk _ _ (hmem "followup_question" (by simp [intentTypeStrings]))
  rw [if_neg h10]
  by_cases h11 : (!ctx.history.isEmpty) = true
  case neg =>
    rw [if_neg h11]
    exact hmk _ _ (hmem "unknown" (by simp [intentTypeStrings]))
  rw [if_pos h11]
  cases llmRaw with
  | none =>
    exact hmk (Json.str "unknown") (Json.obj [("message", Json.str message)])
      (hmem "unknown" (by simp [intentTypeStrings]))
  | some raw =>
    unfold classify_with_llm
    dsimp only
    cases hjl : json_loads ((extractBraced raw).getD raw) with
    | none =>
      dsimp only
      by_cases hs1 : containsStr (pyLower raw) "research" = true
      · rw [if_pos hs1]
        exact hmk _ _ (hmem "research_request" (by simp [intentTypeStrings]))
      rw [if_neg hs1]
      by_cases hs2 : containsStr (pyLower raw) "followup" = true
      · rw [if_pos hs2]
        exact hmk _ _ (hmem "followup_question" (by simp [intentTypeStrings]))
      rw [if_neg hs2]
      exact hmk _ _ (hmem "unknown" (by simp [intentTypeStrings]))
    | some j =>
      cases j with
      | obj d =>
        have hH := H raw d rfl (by unfold fallbackParsedObj; rw [hjl])
        exact ⟨hH.1, hH.2⟩
      | null =>
        exact hmk (Json.str "unknown") (Json.obj [("message", Json.str message)])
          (hmem "unknown" (by simp [intentTypeStrings]))
      | bool b =>
        exact hmk (Json.str "unknown") (Json.obj [("message", Json.str message)])
          (hmem "unknown" (by simp [intentTypeStrings]))
      | num q =>
        exact hmk (Json.str "unknown") (Json.obj [("message", Json.str message)])
          (hmem "unknown" (by simp [intentTypeStrings]))
      | str s =>
        exact hmk (Json.str "unknown") (Json.obj [("message", Json.str message)])
          (hmem "unknown" (by simp [intentTypeStrings]))
      | arr l =>
        exact hmk (Json.str "unknown") (Json.obj [("message", Json.str message)])
          (hmem "unknown" (by simp [intentTypeStrings]))

/-- Witness for C3 with a failing fallback call (vacuous side condition). -/
theorem c3_witness :
    intentInvariant (classify_intent none 7 "hello" (DialogContext.init "w" 7)) :=
  c3_amended none 7 "hello" (DialogContext.init "w" 7)
    (fun _ _ heq _ => nomatch heq)

/-- C8 counterexample: processing `"reset"` does not leave the context at
the fresh defaults — after the in-place reset the turn still appends the
assistant acknowledgment, so the final history has one message where a
freshly constructed context has none. -/
theorem c8_counterexample :
    (process_message llm0 9 4 "reset" ctxJunk).toOption.map
        (fun r => r.2.2.history.length) = some 1 ∧
    (DialogContext.init "s" 9).history.length = 0 := ⟨rfl, rfl⟩

/-- C8: processing an utterance classified as the reset command keeps
`session_id` and resets topic, research id, preferences, last intent,
conversation state and metadata to the fresh defaults, but the returned
context's history is not the default `[]`: it holds exactly the one
assistant acknowledgment message appended after the reset. -/
theorem c8_amended (llm : LlmOracle) (now idBase : Nat) (ctx : DialogContext) :
    process_message llm now idBase "reset" ctx =
      .ok (resetAck,
        DialogIntent.make (Json.str "system_command")
          (Json.obj [("command", Json.str "reset")]) now,
        { DialogContext.init ctx.session_id now with
            history := [⟨idBase + 1, "assistant", resetAck, now, Json.obj []⟩] }) := by
  rfl

theorem stateUpdate_ok_history (intent : DialogIntent) (ctx c3 : DialogContext)
    (h : stateUpdate intent ctx = .ok c3) : c3.history = ctx.history := by
  unfold stateUpdate at h
  by_cases h1 : (intent.type == Json.str "greeting") = true
  · rw [if_pos h1] at h
    rw [← Except.ok.inj h]
  rw [if_neg h1] at h
  by_cases h2 : (intent.type == Json.str "research_request") = true
  · rw [if_pos h2] at h
    dsimp only at h
    revert h
    cases hg : pyGet1 intent.parameters "topic" with
    | ok t =>
      intro h
      rw [← Except.ok.inj h]
    | error e =>
      intro h
      simp at h
  rw [if_neg h2] at h
  by_cases h3 : (intent.type == Json.str "followup_question") = true
  · rw [if_pos h3] at h
    rw [← Except.ok.inj h]
  rw [if_neg h3] at h
  rw [← Except.ok.inj h]

theorem dispatch_ok_history (llm : LlmOracle) (now : Nat) (intent : DialogIntent)
    (ctx c4 : DialogContext) (r : String)
    (h : dispatch llm now intent ctx = .ok (r, c4))
    (hnr : resetTaken intent = false) : c4.history = ctx.history := by
  obtain ⟨ity, ipar, iconf, its⟩ := intent
  unfold dispatch at h
  by_cases hc : (ity == Json.str "system_command") = true
  · rw [if_pos hc] at h
    cases ipar with
    | obj d =>
      dsimp only [pyGet1] at h
      by_cases hr : (((pyLookup d "command").getD .null) == Json.str "reset") = true
      · exfalso
        simp only [resetTaken, hc, hr, Bool.and_true, Bool.true_and] at hnr
        exact absurd hnr (by simp)
      · rw [if_neg hr] at h
        by_cases hh : (((pyLookup d "command").getD .null) == Json.str "help") = true
        · rw [if_pos hh] at h
          simp only [Except.ok.injEq, Prod.mk.injEq] at h
          rw [← h.2]
        · rw [if_neg hh] at h
          simp only [Except.ok.injEq, Prod.mk.injEq] at h
          rw [← h.2]
    | null => simp [pyGet1] at h
    | bool b => simp [pyGet1] at h
    | num q => simp [pyGet1] at h
    | str s => simp [pyGet1] at h
    | arr l => simp [pyGet1] at h
  · rw [if_neg hc] at h
    by_cases hg : (ity == Json.str "greeting") = true
    · rw [if_pos hg] at h
      simp only [Except.ok.injEq, Prod.mk.injEq] at h
      rw [← h.2]
    rw [if_neg hg] at h
    by_cases hrr : ((ity == Json.str "research_request") ||
        (ity == Json.str "comparison_request")) = true
    · rw [if_pos hrr] at h
      unfold generate_research_response at h
      cases ipar with
      | obj d =>
        obtain ⟨lc, lr, lf⟩ := llm
        cases lr with
        | some raw =>
          dsimp only at h
          simp only [Except.ok.injEq, Prod.mk.injEq] at h
          rw [← h.2]
        | none =>
          dsimp only at h
          simp only [Except.ok.injEq, Prod.mk.injEq] at h
          rw [← h.2]
      | null => simp at h
      | bool b => simp at h
      | num q => simp at h
      | str s => simp at h
      | arr l => simp at h
    rw [if_neg hrr] at h
    by_cases hf : (ity == Json.str "followup_question") = true
    · rw [if_pos hf] at h
      simp only [Except.ok.injEq, Prod.mk.injEq] at h
      rw [← h.2]
    rw [if_neg hf] at h
    by_cases hcl : (ity == Json.str "clarification_request") = true
    · rw [if_pos hcl] at h
      simp only [Except.ok.injEq, Prod.mk.injEq] at h
      rw [← h.2]
    rw [if_neg hcl] at h
    by_cases hfb : (ity == Json.str "user_feedback") = true
    · rw [if_pos hfb] at h
      revert h
      cases ha : acknowledge_feedback ⟨ity, ipar, iconf, its⟩ with
      | ok v =>
        intro h
        simp only [Except.ok.injEq, Prod.mk.injEq] at h
        rw [← h.2]
      | error e => intro h; simp at h
    rw [if_neg hfb] at h
    by_cases hst : (ity == Json.str "small_talk") = true
    · rw [if_pos hst] at h
      revert h
      cases ha : handle_small_talk ⟨ity, ipar, iconf, its⟩ with
      | ok v =>
        intro h
        simp only [Except.ok.injEq, Prod.mk.injEq] at h
        rw [← h.2]
      | error e => intro h; simp at h
    rw [if_neg hst] at h
    simp only [Except.ok.injEq, Prod.mk.injEq] at h
    rw [← h.2]

/-- C5 counterexample: a fallback classification carrying a non-dictionary
`parameters` value (here a list) produces a feedback intent whose dispatch
raises `AttributeError` out of `process_message`; the call does not return
and history has grown by one message (the user message), not two. -/
theorem c5_counterexample :
    process_message llmFeedback 0 0 animalsMsg ctx0 = .error
      { session_id := "s"
        history := [⟨0, "user", animalsMsg, 0, Json.obj []⟩]
        current_topic := Json.null
        current_research_id := Json.null
        user_preferences := Json.obj []
        last_intent := some ⟨Json.str "user_feedback", Json.arr [Json.num ⟨1, 0⟩],
          Json.num ⟨7, 1⟩, 0⟩
        conversation_state := "greeting"
        metadata := ⟨0, 0⟩ } ∧
    (match process_message llmFeedback 0 0 animalsMsg ctx0 with
     | .error c => c.history.length
     | .ok r => r.2.2.history.length) = ctx0.history.length + 1 := ⟨rfl, rfl⟩

/-- C5: every `process_message` call that returns normally and whose
classified intent is not the reset command appends exactly one user message
and then one assistant message to the history, leaving every previously
appended message untouched; a call that raises (see the counterexample)
leaves only the user message appended. -/
theorem c5_amended (llm : LlmOracle) (now idBase : Nat) (message : String)
    (ctx : DialogContext) (resp : String) (intent : DialogIntent)
    (ctx' : DialogContext)
    (hok : process_message llm now idBase message ctx = .ok (resp, intent, ctx'))
    (hnr : resetTaken intent = false) :
    ctx'.history = ctx.history ++
      [⟨idBase, "user", message, now, Json.obj []⟩,
       ⟨idBase + 1, "assistant", resp, now, Json.obj []⟩] := by
  unfold process_message at hok
  dsimp only at hok
  split at hok
  next cE heq => simp at hok
  next c3 heq =>
    split at hok
    next cE2 heq2 => simp at hok
    next response ctx4 heq2 =>
      simp only [Except.ok.injEq, Prod.mk.injEq] at hok
      obtain ⟨hr, hI, hc⟩ := hok
      rw [← hI] at hnr
      have h4 := dispatch_ok_history llm now _ c3 ctx4 response heq2 hnr
      have h3 := stateUpdate_ok_history _ _ _ heq
      rw [← hc, add_message_history, h4, h3, hr]
      simp [add_message_history, pyTruthy]

/-- Witness for C5: a greeting turn appends exactly the user and assistant
messages. -/
theorem c5_witness :
    ({ session_id := "s"
       history := [⟨3, "user", "hello", 17, Json.obj []⟩,
                   ⟨4, "assistant", firstGreeting, 17, Json.obj []⟩]
       current_topic := Json.null
       current_research_id := Json.null
       user_preferences := Json.obj []
       last_intent := some (DialogIntent.make (Json.str "greeting") Json.null 17)
       conversation_state := "greeting"
       metadata := ⟨17, 17⟩ } : DialogContext).history =
      (DialogContext.init "s" 17).history ++
        [⟨3, "user", "hello", 17, Json.obj []⟩,
         ⟨4, "assistant", firstGreeting, 17, Json.obj []⟩] :=
  c5_amended llm0 17 3 "hello" (DialogContext.init "s" 17) firstGreeting
    (DialogIntent.make (Json.str "greeting") Json.null 17)
    { session_id := "s"
      history := [⟨3, "user", "hello", 17, Json.obj []⟩,
                  ⟨4, "assistant", firstGreeting, 17, Json.obj []⟩]
      current_topic := Json.null
      current_research_id := Json.null
      user_preferences := Json.obj []
      last_intent := some (DialogIntent.make (Json.str "greeting") Json.null 17)
      conversation_state := "greeting"
      metadata := ⟨17, 17⟩ }
    (by rfl) (by rfl)
